import Mathlib

/-!
Shallow embedding of the TypeScript DOM-glue of juice.css
(theme switcher in two variants, raw-HTML toggle in two variants,
dialog controls, copy-to-clipboard button), together with proofs of the
specification's claims about them.

Stateful DOM code is embedded as explicit state passing: each event
handler becomes a total function from state to state.  Fallible code
(the clipboard write) takes its outcome as an `Except` argument and the
handler's catch branch becomes the `.error` match arm.
-/

namespace JuiceCss

/-- The `Theme` union type: `"auto" | "light" | "dark"`
    (src/theme-switcher.ts line 6 and src/demo/theme-switcher.ts line 10). -/
inductive Theme where
  | auto
  | light
  | dark
deriving DecidableEq, Repr

/-- The string literal each theme value denotes in the TypeScript source. -/
def Theme.str : Theme → String
  | .auto => "auto"
  | .light => "light"
  | .dark => "dark"

/-! ## Variant A: inline custom-property theme switcher (src/theme-switcher.ts)

`document.documentElement.style` is modelled as a partial map from CSS
property names to values; `localStorage` as the single `Option String`
entry under the key `"theme"`; each theme button as an optional element
(a presence flag) carrying its inline `opacity` / `fontWeight`. -/

/-- `root.style`, a partial map from CSS custom-property names to values. -/
abbrev StyleMap := String → Option String

/-- `style.setProperty(k, v)`. -/
def setProperty (k v : String) (m : StyleMap) : StyleMap :=
  fun k' => if k' = k then some v else m k'

/-- `style.removeProperty(k)`. -/
def removeProperty (k : String) (m : StyleMap) : StyleMap :=
  fun k' => if k' = k then none else m k'

/-- The `lightTheme` variable table (src/theme-switcher.ts lines 10-35). -/
def lightTheme : List (String × String) :=
  [("--background-body", "#ffffff"),
   ("--background", "#f5f5f7"),
   ("--background-alt", "#ffffff"),
   ("--selection", "rgba(0, 122, 255, 0.2)"),
   ("--text-main", "#1d1d1f"),
   ("--text-bright", "#000000"),
   ("--text-muted", "#86868b"),
   ("--links", "#007aff"),
   ("--focus", "rgba(0, 122, 255, 0.4)"),
   ("--border", "#d2d2d7"),
   ("--code", "#ff3b30"),
   ("--button-base", "#007aff"),
   ("--button-hover", "#0051d5"),
   ("--scrollbar-thumb", "#d2d2d7"),
   ("--scrollbar-thumb-hover", "#86868b"),
   ("--form-placeholder", "#86868b"),
   ("--form-text", "#1d1d1f"),
   ("--variable", "#34c759"),
   ("--highlight", "rgba(255, 214, 10, 0.5)"),
   ("--button-text", "#ffffff"),
   ("--slider-thumb", "#ffffff"),
   ("--success", "#34c759"),
   ("--warning", "#ff9500"),
   ("--error", "#ff3b30")]

/-- The `darkTheme` variable table (src/theme-switcher.ts lines 37-62). -/
def darkTheme : List (String × String) :=
  [("--background-body", "#000000"),
   ("--background", "#1c1c1e"),
   ("--background-alt", "#2c2c2e"),
   ("--selection", "rgba(10, 132, 255, 0.3)"),
   ("--text-main", "#f5f5f7"),
   ("--text-bright", "#ffffff"),
   ("--text-muted", "#8e8e93"),
   ("--links", "#0a84ff"),
   ("--focus", "rgba(10, 132, 255, 0.5)"),
   ("--border", "#38383a"),
   ("--code", "#ff453a"),
   ("--button-base", "#0a84ff"),
   ("--button-hover", "#409cff"),
   ("--scrollbar-thumb", "#48484a"),
   ("--scrollbar-thumb-hover", "#636366"),
   ("--form-placeholder", "#8e8e93"),
   ("--form-text", "#f5f5f7"),
   ("--variable", "#30d158"),
   ("--highlight", "rgba(255, 214, 10, 0.4)"),
   ("--button-text", "#ffffff"),
   ("--slider-thumb", "#ffffff"),
   ("--success", "#30d158"),
   ("--warning", "#ff9f0a"),
   ("--error", "#ff453a")]

/-- `Object.keys(lightTheme)`: the property names the switcher manages. -/
def themeKeys : List String := lightTheme.map Prod.fst

/-- The `for (const [key, value] of Object.entries(vars)) root.style.setProperty(key, value)` loop. -/
def setProps (vars : List (String × String)) (m : StyleMap) : StyleMap :=
  vars.foldl (fun acc kv => setProperty kv.1 kv.2 acc) m

/-- The `for (const key of Object.keys(lightTheme)) root.style.removeProperty(key)` loop. -/
def removeProps (keys : List String) (m : StyleMap) : StyleMap :=
  keys.foldl (fun acc k => removeProperty k acc) m

/-- The inline style of one theme button: its `opacity` and `fontWeight`
    inline properties (`none` = not set). -/
structure BtnStyle where
  opacity : Option String
  fontWeight : Option String
deriving DecidableEq, Repr

/-- The state touched by src/theme-switcher.ts: the document root's inline
    style, the `localStorage` entry under key `"theme"`, and the three
    theme buttons `btn-auto` / `btn-light` / `btn-dark`, each possibly
    absent from the document (`getElementById` returning null). -/
structure StateA where
  rootStyle : StyleMap
  storage : Option String
  presentAuto : Bool
  presentLight : Bool
  presentDark : Bool
  btnAuto : BtnStyle
  btnLight : BtnStyle
  btnDark : BtnStyle

/-- The style `updateButtons` writes to a button: active buttons get
    opacity `"1"` and weight `"600"`, inactive ones `"0.6"` and `"normal"`
    (src/theme-switcher.ts lines 97-98). -/
def setBtnStyle (active : Bool) : BtnStyle :=
  { opacity := some (if active then "1" else "0.6"),
    fontWeight := some (if active then "600" else "normal") }

/-- `updateButtons(theme)` (src/theme-switcher.ts lines 91-101): the
    `themes.forEach` loop over `["auto", "light", "dark"]`, unrolled; each
    iteration styles its button only when `getElementById` finds it. -/
def updateButtons (theme : Theme) (s : StateA) : StateA :=
  { s with
    btnAuto := if s.presentAuto then setBtnStyle (Theme.auto == theme) else s.btnAuto,
    btnLight := if s.presentLight then setBtnStyle (Theme.light == theme) else s.btnLight,
    btnDark := if s.presentDark then setBtnStyle (Theme.dark == theme) else s.btnDark }

/-- The document/storage effect of `setTheme(theme)` (src/theme-switcher.ts
    lines 70-83): the `if (theme === "auto")` branch removes every managed
    property and the storage entry; the else branch writes the chosen
    variable table (`theme === "light" ? lightTheme : darkTheme`) and
    persists the literal theme name. -/
def setThemeDoc (theme : Theme) (s : StateA) : StateA :=
  if theme == .auto then
    { s with rootStyle := removeProps themeKeys s.rootStyle, storage := none }
  else
    let vars := if theme == .light then lightTheme else darkTheme
    { s with rootStyle := setProps vars s.rootStyle, storage := some theme.str }

/-- `setTheme(theme)` (src/theme-switcher.ts lines 67-86): the branch on
    the theme followed by the final `updateButtons(theme)` call. -/
def setTheme (theme : Theme) (s : StateA) : StateA :=
  updateButtons theme (setThemeDoc theme s)

/-- The literal array `["auto", "light", "dark"]` that `init` validates
    the saved value against (src/theme-switcher.ts line 109). -/
def validThemes : List String := ["auto", "light", "dark"]

/-- The guard `saved && ["auto", "light", "dark"].includes(saved)` of
    `init`.  (A falsy `saved` — `null` or `""` — fails the guard; `""` also
    fails `includes`, so modelling only the `includes` test on a present
    value is behaviourally identical.) -/
def savedValid : Option String → Bool
  | none => false
  | some v => validThemes.contains v

/-- The cast of a validated saved string back to a `Theme` value. -/
def strToTheme (v : String) : Theme :=
  if v = "light" then .light else if v = "dark" then .dark else .auto

/-- `init()` (src/theme-switcher.ts lines 106-125), its state effect: read
    the saved value, `setTheme` it when valid, otherwise only
    `updateButtons("auto")`.  (The listener attachments at the end of
    `init` register `setTheme` itself and change no modelled state.) -/
def initA (s : StateA) : StateA :=
  match s.storage with
  | some v => if validThemes.contains v then setTheme (strToTheme v) s else updateButtons .auto s
  | none => updateButtons .auto s

/-- A fresh session: document in its default state (no inline root style,
    buttons unstyled), same markup (button presence), storage carried over. -/
def freshA (pAuto pLight pDark : Bool) (store : Option String) : StateA :=
  { rootStyle := fun _ => none,
    storage := store,
    presentAuto := pAuto, presentLight := pLight, presentDark := pDark,
    btnAuto := ⟨none, none⟩, btnLight := ⟨none, none⟩, btnDark := ⟨none, none⟩ }

/-- The effective theme override: the document root's inline values at the
    theme-managed custom properties, in the fixed order of `themeKeys`. -/
def themeRestrict (m : StyleMap) : List (Option String) :=
  themeKeys.map m

/-- A button is visually marked active: full opacity and bold weight. -/
def isActiveStyle (b : BtnStyle) : Bool :=
  b.opacity == some "1" && b.fontWeight == some "600"

/-- The theme button for `t` is present and marked active. -/
def activeBtnA (s : StateA) : Theme → Bool
  | .auto => s.presentAuto && isActiveStyle s.btnAuto
  | .light => s.presentLight && isActiveStyle s.btnLight
  | .dark => s.presentDark && isActiveStyle s.btnDark

/-! ## Variant B: data-theme attribute theme switcher (src/demo/theme-switcher.ts)

The document root carries an optional `data-theme` attribute; the single
UI control is the `theme-select` select element, possibly absent. -/

/-- The state touched by src/demo/theme-switcher.ts. -/
structure StateB where
  dataTheme : Option String
  storage : Option String
  selPresent : Bool
  selValue : String
deriving DecidableEq, Repr

/-- `updateSelect(theme)` (src/demo/theme-switcher.ts lines 35-40): set the
    select's value when the element is found. -/
def updateSelect (theme : Theme) (s : StateB) : StateB :=
  if s.selPresent then { s with selValue := theme.str } else s

/-- The attribute/storage effect of `setTheme(theme)` (src/demo/
    theme-switcher.ts lines 19-27): `removeAttribute` + `removeItem` for
    `"auto"`, `setAttribute` + `setItem` with the literal theme name
    otherwise. -/
def setThemeBDoc (theme : Theme) (s : StateB) : StateB :=
  if theme == .auto then
    { s with dataTheme := none, storage := none }
  else
    { s with dataTheme := some theme.str, storage := some theme.str }

/-- `setTheme(theme)` (src/demo/theme-switcher.ts lines 16-30): the branch
    on the theme followed by the final `updateSelect(theme)` call. -/
def setThemeB (theme : Theme) (s : StateB) : StateB :=
  updateSelect theme (setThemeBDoc theme s)

/-- `init()` (src/demo/theme-switcher.ts lines 45-59), its state effect;
    the trailing change-listener attachment registers `setTheme` and
    changes no modelled state. -/
def initB (s : StateB) : StateB :=
  match s.storage with
  | some v => if validThemes.contains v then setThemeB (strToTheme v) s else updateSelect .auto s
  | none => updateSelect .auto s

/-- A fresh session for variant B: no `data-theme` attribute, the select
    showing its markup-default value, storage carried over. -/
def freshB (pSel : Bool) (defVal : String) (store : Option String) : StateB :=
  { dataTheme := none, storage := store, selPresent := pSel, selValue := defVal }

/-- The active control of variant B: the select's value when the select
    exists, nothing otherwise. -/
def activeSelB (s : StateB) : Option String :=
  if s.selPresent then some s.selValue else none

/-! ## Raw-HTML toggle, two variants

`src/raw-toggle.ts` gates the widget on a local-development hostname;
the copy at the end of src/theme-switcher.ts (lines 137-162) has no such
gate.  The state: the toggle button (presence, text, inline `display`),
the `disabled` flag of every stylesheet link / style block, the
module-closure boolean `isRaw`, and whether the click listener was
attached. -/

/-- State for the raw-HTML toggle widget. -/
structure RawState where
  btnPresent : Bool
  btnText : String
  btnDisplay : Option String
  styleDisabled : List Bool
  isRaw : Bool
  attached : Bool
deriving DecidableEq, Repr

/-- The local-development hosts of src/raw-toggle.ts line 12:
    `location.hostname === "localhost" || location.hostname === "127.0.0.1"`. -/
def isDevHost (h : String) : Bool :=
  h == "localhost" || h == "127.0.0.1"

/-- `initRawToggle()` of src/raw-toggle.ts (lines 6-39): bail out when the
    button is missing; on a non-dev host hide the button and bail out;
    otherwise create `isRaw = false` and attach the click listener. -/
def initRawToggle (hostname : String) (s : RawState) : RawState :=
  if !s.btnPresent then s
  else if !isDevHost hostname then { s with btnDisplay := some "none" }
  else { s with isRaw := false, attached := true }

/-- `initRawToggle()` of src/theme-switcher.ts lines 137-162: identical
    except that it never consults the hostname. -/
def initRawToggleUngated (s : RawState) : RawState :=
  if !s.btnPresent then s
  else { s with isRaw := false, attached := true }

/-- One click on the toggle button.  When the listener is attached (both
    variants register the same handler) it flips `isRaw`, sets every
    stylesheet's `disabled` flag to the new value and updates the button
    text; with no listener a click changes nothing. -/
def clickRawToggle (s : RawState) : RawState :=
  if s.attached then
    let r := !s.isRaw
    { s with isRaw := r,
             styleDisabled := s.styleDisabled.map (fun _ => r),
             btnText := if r then "Show Styled" else "Raw HTML" }
  else s

/-! ## Dialog controls (src/demo/dialog.ts) -/

/-- The dialog element's open state. -/
structure DialogState where
  isOpen : Bool
deriving DecidableEq, Repr

/-- `dialog.showModal()`. -/
def showModal (_ : DialogState) : DialogState := { isOpen := true }

/-- `dialog.close()`. -/
def closeDialog (_ : DialogState) : DialogState := { isOpen := false }

/-- The open trigger's click listener (src/demo/dialog.ts line 10). -/
def openTriggerClick (s : DialogState) : DialogState := showModal s

/-- The close control's click listener (src/demo/dialog.ts line 11). -/
def closeTriggerClick (s : DialogState) : DialogState := closeDialog s

/-- The target of a click event that reaches the dialog's own listener:
    either the dialog element itself (a backdrop click) or one of its
    descendants (the event bubbled up from the content). -/
inductive DialogClickTarget where
  | dialogItself
  | descendant
deriving DecidableEq, Repr

/-- The dialog's own click listener (src/demo/dialog.ts lines 14-16):
    `if (e.target === dialog) dialog.close()`. -/
def dialogClickHandler (tgt : DialogClickTarget) (s : DialogState) : DialogState :=
  match tgt with
  | .dialogItself => closeDialog s
  | .descendant => s

/-! ## Copy-to-clipboard button (addCopyButtons)

The click handler is `async`, awaits `navigator.clipboard.writeText` and
catches its failure; the write's outcome is passed in as an `Except`.
The 2-second `setTimeout` callback is a separate step function. -/

/-- One injected copy button: label, `copied` class flag, inline opacity. -/
structure CopyButton where
  text : String
  copiedClass : Bool
  opacity : Option String
deriving DecidableEq, Repr

/-- The button as `addCopyButtons` creates it: label `"Copy"`, no class,
    opacity `"0"` until hover. -/
def newCopyButton : CopyButton :=
  { text := "Copy", copiedClass := false, opacity := some "0" }

/-- The copy widget's state: the system clipboard and the button. -/
structure CopyState where
  clipboard : Option String
  button : CopyButton
deriving DecidableEq, Repr

/-- The fixed label-revert delay: `setTimeout(..., 2000)`. -/
def copyRevertDelayMs : Nat := 2000

/-- The copy button's click handler, given the text content of its code
    block and the outcome of `navigator.clipboard.writeText(text)`.  The
    `try` branch is the `.ok` arm, the `catch` branch the `.error` arm; the
    handler is a total function, so no failure escapes it. -/
def clickCopy (blockText : String) (writeResult : Except String Unit) (s : CopyState) : CopyState :=
  match writeResult with
  | .ok _ =>
      { clipboard := some blockText,
        button := { s.button with text := "Copied!", copiedClass := true } }
  | .error _ =>
      { s with button := { s.button with text := "Failed" } }

/-- The `setTimeout` callback the click handler schedules, per branch:
    after a success it restores the label, drops the `copied` class and
    hides the button; after a failure it only restores the label. -/
def copyTimeout (writeResult : Except String Unit) (s : CopyState) : CopyState :=
  match writeResult with
  | .ok _ =>
      { s with button := { text := "Copy", copiedClass := false, opacity := some "0" } }
  | .error _ =>
      { s with button := { s.button with text := "Copy" } }

/-- Any (possibly repeated) sequence of `setTheme` calls, applied in order
    (variant A). -/
def applyListA (ts : List Theme) (s : StateA) : StateA :=
  ts.foldl (fun acc t => setTheme t acc) s

/-- Any (possibly repeated) sequence of `setTheme` calls, applied in order
    (variant B). -/
def applyListB (ts : List Theme) (s : StateB) : StateB :=
  ts.foldl (fun acc t => setThemeB t acc) s

/-- The per-button presence flag, indexed by theme. -/
def presentA (s : StateA) : Theme → Bool
  | .auto => s.presentAuto
  | .light => s.presentLight
  | .dark => s.presentDark

/-! ## Helper lemmas about the style-map folds -/

lemma setProps_cons (a : String × String) (L : List (String × String)) (m : StyleMap) :
    setProps (a :: L) m = setProps L (setProperty a.1 a.2 m) := rfl

lemma removeProps_cons (a : String) (ks : List String) (m : StyleMap) :
    removeProps (a :: ks) m = removeProps ks (removeProperty a m) := rfl

/-- A key not named by the pair list is untouched by the `setProperty` loop. -/
lemma setProps_not_mem (L : List (String × String)) (m : StyleMap) (k : String)
    (h : k ∉ L.map Prod.fst) : setProps L m k = m k := by
  induction L generalizing m with
  | nil => rfl
  | cons a L ih =>
    rw [List.map_cons, List.mem_cons, not_or] at h
    rw [setProps_cons, ih _ h.2, setProperty, if_neg h.1]

/-- At a key the pair list names, the `setProperty` loop's result does not
    depend on the starting map. -/
lemma setProps_indep (L : List (String × String)) (m m' : StyleMap) (k : String)
    (h : k ∈ L.map Prod.fst) : setProps L m k = setProps L m' k := by
  induction L generalizing m m' with
  | nil => cases h
  | cons a L ih =>
    rw [setProps_cons, setProps_cons]
    by_cases hk : k ∈ L.map Prod.fst
    · exact ih _ _ hk
    · rw [List.map_cons, List.mem_cons] at h
      rcases h with h | h
      · rw [setProps_not_mem _ _ _ hk, setProps_not_mem _ _ _ hk,
            setProperty, setProperty, if_pos h, if_pos h]
      · exact absurd h hk

/-- A key not in the removal list is untouched by the `removeProperty` loop. -/
lemma removeProps_not_mem (ks : List String) (m : StyleMap) (k : String)
    (h : k ∉ ks) : removeProps ks m k = m k := by
  induction ks generalizing m with
  | nil => rfl
  | cons a ks ih =>
    rw [List.mem_cons, not_or] at h
    rw [removeProps_cons, ih _ h.2, removeProperty, if_neg h.1]

/-- Every key in the removal list ends up absent after the `removeProperty`
    loop. -/
lemma removeProps_mem (ks : List String) (m : StyleMap) (k : String)
    (h : k ∈ ks) : removeProps ks m k = none := by
  induction ks generalizing m with
  | nil => cases h
  | cons a ks ih =>
    rw [removeProps_cons]
    by_cases hk : k ∈ ks
    · exact ih _ hk
    · rcases List.mem_cons.mp h with h | h
      · rw [removeProps_not_mem _ _ _ hk, removeProperty, if_pos h]
      · exact absurd h hk

/-- Removing all managed keys twice is the same as once. -/
lemma removeProps_idem (ks : List String) (m : StyleMap) :
    removeProps ks (removeProps ks m) = removeProps ks m := by
  funext k
  by_cases h : k ∈ ks
  · rw [removeProps_mem _ _ _ h, removeProps_mem _ _ _ h]
  · rw [removeProps_not_mem _ _ _ h]

/-- Setting the whole variable table twice is the same as once. -/
lemma setProps_idem (L : List (String × String)) (m : StyleMap) :
    setProps L (setProps L m) = setProps L m := by
  funext k
  by_cases h : k ∈ L.map Prod.fst
  · exact setProps_indep _ _ _ _ h
  · rw [setProps_not_mem _ _ _ h]

/-- The dark table names exactly the keys of the light table. -/
lemma darkTheme_keys : darkTheme.map Prod.fst = themeKeys := by decide

/-! ## Helper lemmas about the button updates -/

lemma isActiveStyle_setBtnStyle (b : Bool) : isActiveStyle (setBtnStyle b) = b := by
  cases b <;> decide

/-- After `updateButtons th`, a button is present-and-active exactly when it
    is present and is the button for `th`. -/
lemma activeBtnA_updateButtons (th : Theme) (s : StateA) (t : Theme) :
    activeBtnA (updateButtons th s) t = (presentA s t && (t == th)) := by
  cases t <;>
    simp only [activeBtnA, updateButtons, presentA] <;>
    [by_cases hp : s.presentAuto; by_cases hp : s.presentLight; by_cases hp : s.presentDark] <;>
    simp [hp, isActiveStyle_setBtnStyle, BEq.comm]

lemma updateButtons_rootStyle (th : Theme) (s : StateA) :
    (updateButtons th s).rootStyle = s.rootStyle := rfl

lemma updateButtons_storage (th : Theme) (s : StateA) :
    (updateButtons th s).storage = s.storage := rfl

lemma setTheme_storage_auto (s : StateA) : (setTheme .auto s).storage = none := rfl

lemma setTheme_storage_light (s : StateA) : (setTheme .light s).storage = some "light" := rfl

lemma setTheme_storage_dark (s : StateA) : (setTheme .dark s).storage = some "dark" := rfl

lemma setTheme_rootStyle_auto (s : StateA) :
    (setTheme .auto s).rootStyle = removeProps themeKeys s.rootStyle := rfl

lemma setTheme_rootStyle_light (s : StateA) :
    (setTheme .light s).rootStyle = setProps lightTheme s.rootStyle := rfl

lemma setTheme_rootStyle_dark (s : StateA) :
    (setTheme .dark s).rootStyle = setProps darkTheme s.rootStyle := rfl

lemma setThemeDoc_presentA (th : Theme) (s : StateA) :
    presentA (setThemeDoc th s) = presentA s := by
  funext t; cases t <;> cases th <;> rfl

lemma setTheme_presentA (th : Theme) (s : StateA) :
    presentA (setTheme th s) = presentA s := by
  funext t; cases t <;> cases th <;> rfl

/-- After `setTheme th`, a button is present-and-active exactly when it is
    present and is the button for `th`. -/
lemma activeBtnA_setTheme (th : Theme) (s : StateA) (t : Theme) :
    activeBtnA (setTheme th s) t = (presentA s t && (t == th)) := by
  rw [setTheme, activeBtnA_updateButtons, setThemeDoc_presentA]

lemma updateSelect_storage (th : Theme) (s : StateB) :
    (updateSelect th s).storage = s.storage := by
  unfold updateSelect; split <;> rfl

lemma updateSelect_dataTheme (th : Theme) (s : StateB) :
    (updateSelect th s).dataTheme = s.dataTheme := by
  unfold updateSelect; split <;> rfl

lemma updateSelect_selPresent (th : Theme) (s : StateB) :
    (updateSelect th s).selPresent = s.selPresent := by
  unfold updateSelect; split <;> rfl

lemma setThemeB_storage_auto (s : StateB) : (setThemeB .auto s).storage = none := by
  rw [setThemeB, updateSelect_storage]; rfl

lemma setThemeB_storage_light (s : StateB) : (setThemeB .light s).storage = some "light" := by
  rw [setThemeB, updateSelect_storage]; rfl

lemma setThemeB_storage_dark (s : StateB) : (setThemeB .dark s).storage = some "dark" := by
  rw [setThemeB, updateSelect_storage]; rfl

lemma setThemeB_dataTheme (th : Theme) (s : StateB) :
    (setThemeB th s).dataTheme = (setThemeBDoc th s).dataTheme := by
  rw [setThemeB, updateSelect_dataTheme]

lemma setThemeB_selPresent (th : Theme) (s : StateB) :
    (setThemeB th s).selPresent = s.selPresent := by
  rw [setThemeB, updateSelect_selPresent]; cases th <;> rfl

/-- After `setThemeB th`, the active control (when the select exists) shows
    exactly `th`. -/
lemma activeSelB_setThemeB (th : Theme) (s : StateB) :
    activeSelB (setThemeB th s) = (if s.selPresent then some th.str else none) := by
  unfold activeSelB setThemeB updateSelect
  by_cases hp : s.selPresent <;>
    cases th <;> simp [hp, setThemeBDoc]

/-- `init()` with a present, valid saved value applies it. -/
lemma initA_valid (s : StateA) (v : String) (h : s.storage = some v)
    (hv : validThemes.contains v = true) :
    initA s = setTheme (strToTheme v) s := by
  unfold initA
  rw [h]
  show (if validThemes.contains v = true then setTheme (strToTheme v) s
        else updateButtons .auto s) = setTheme (strToTheme v) s
  rw [if_pos hv]

/-- `init()` with an absent or invalid saved value only repaints the
    buttons as "auto". -/
lemma initA_invalid (s : StateA) (h : savedValid s.storage = false) :
    initA s = updateButtons .auto s := by
  unfold initA
  cases hs : s.storage with
  | none => rfl
  | some v =>
    rw [hs] at h
    simp only [savedValid] at h
    show (if validThemes.contains v = true then setTheme (strToTheme v) s
          else updateButtons .auto s) = updateButtons .auto s
    rw [if_neg (by rw [h]; exact Bool.false_ne_true)]

lemma initB_valid (s : StateB) (v : String) (h : s.storage = some v)
    (hv : validThemes.contains v = true) :
    initB s = setThemeB (strToTheme v) s := by
  unfold initB
  rw [h]
  show (if validThemes.contains v = true then setThemeB (strToTheme v) s
        else updateSelect .auto s) = setThemeB (strToTheme v) s
  rw [if_pos hv]

lemma initB_invalid (s : StateB) (h : savedValid s.storage = false) :
    initB s = updateSelect .auto s := by
  unfold initB
  cases hs : s.storage with
  | none => rfl
  | some v =>
    rw [hs] at h
    simp only [savedValid] at h
    show (if validThemes.contains v = true then setThemeB (strToTheme v) s
          else updateSelect .auto s) = updateSelect .auto s
    rw [if_neg (by rw [h]; exact Bool.false_ne_true)]

lemma presentA_freshA (s : StateA) (st : Option String) (t : Theme) :
    presentA (freshA s.presentAuto s.presentLight s.presentDark st) t = presentA s t := by
  cases t <;> rfl

/-- A concrete demo-page state for variant A: default document, empty
    storage, all three theme buttons present. -/
def exStateA : StateA :=
  { rootStyle := fun _ => none, storage := none,
    presentAuto := true, presentLight := true, presentDark := true,
    btnAuto := ⟨none, none⟩, btnLight := ⟨none, none⟩, btnDark := ⟨none, none⟩ }

/-- A concrete demo-page state for variant B: no attribute, empty storage,
    the select present and showing its markup default. -/
def exStateB : StateB :=
  { dataTheme := none, storage := none, selPresent := true, selValue := "auto" }

/-- Variant A state whose storage holds the invalid string `"blue"`. -/
def exStateABlue : StateA := { exStateA with storage := some "blue" }

/-- Variant B state whose storage holds the invalid string `"blue"`. -/
def exStateBBlue : StateB := { exStateB with storage := some "blue" }

/-! ## The claims -/

/-- C1: `apply("auto")` removes the persisted `"theme"` entry and
    `apply("light")` / `apply("dark")` store exactly those literal strings,
    in both switcher variants; consequently after any nonempty sequence of
    apply calls the stored value is absent or `"light"` / `"dark"`, never
    the literal `"auto"`. -/
theorem c1_persisted_theme_values :
    (∀ s : StateA,
      (setTheme .auto s).storage = none ∧
      (setTheme .light s).storage = some "light" ∧
      (setTheme .dark s).storage = some "dark") ∧
    (∀ s : StateB,
      (setThemeB .auto s).storage = none ∧
      (setThemeB .light s).storage = some "light" ∧
      (setThemeB .dark s).storage = some "dark") ∧
    (∀ (ts : List Theme) (s : StateA), ts ≠ [] →
      (applyListA ts s).storage = none ∨ (applyListA ts s).storage = some "light" ∨
        (applyListA ts s).storage = some "dark") ∧
    (∀ (ts : List Theme) (s : StateB), ts ≠ [] →
      (applyListB ts s).storage = none ∨ (applyListB ts s).storage = some "light" ∨
        (applyListB ts s).storage = some "dark") := by
  refine ⟨fun s => ⟨rfl, rfl, rfl⟩,
    fun s => ⟨setThemeB_storage_auto s, setThemeB_storage_light s, setThemeB_storage_dark s⟩,
    ?_, ?_⟩
  · intro ts
    induction ts with
    | nil => intro s h; exact absurd rfl h
    | cons t ts ih =>
      intro s _
      cases ts with
      | nil => cases t
               · exact Or.inl rfl
               · exact Or.inr (Or.inl rfl)
               · exact Or.inr (Or.inr rfl)
      | cons t' ts' => exact ih (setTheme t s) (by simp)
  · intro ts
    induction ts with
    | nil => intro s h; exact absurd rfl h
    | cons t ts ih =>
      intro s _
      cases ts with
      | nil => cases t
               · exact Or.inl (setThemeB_storage_auto s)
               · exact Or.inr (Or.inl (setThemeB_storage_light s))
               · exact Or.inr (Or.inr (setThemeB_storage_dark s))
      | cons t' ts' => exact ih (setThemeB t s) (by simp)

/-- Witness for C1 at concrete inputs. -/
theorem c1_persisted_theme_values_witness :
    (([Theme.auto] : List Theme) ≠ [] ∧
      ((applyListA [Theme.auto] exStateA).storage = none ∨
       (applyListA [Theme.auto] exStateA).storage = some "light" ∨
       (applyListA [Theme.auto] exStateA).storage = some "dark")) ∧
    (([Theme.light] : List Theme) ≠ [] ∧
      ((applyListB [Theme.light] exStateB).storage = none ∨
       (applyListB [Theme.light] exStateB).storage = some "light" ∨
       (applyListB [Theme.light] exStateB).storage = some "dark")) :=
  ⟨⟨by decide, c1_persisted_theme_values.2.2.1 [Theme.auto] exStateA (by decide)⟩,
   ⟨by decide, c1_persisted_theme_values.2.2.2 [Theme.light] exStateB (by decide)⟩⟩

/-- C10: `apply` is idempotent in both variants — a second identical call
    changes neither the document root, nor storage, nor the UI controls. -/
theorem c10_apply_idempotent :
    (∀ (t : Theme) (s : StateA), setTheme t (setTheme t s) = setTheme t s) ∧
    (∀ (t : Theme) (s : StateB), setThemeB t (setThemeB t s) = setThemeB t s) := by
  constructor
  · intro t s
    obtain ⟨rootStyle, storage, pA, pL, pD, bA, bL, bD⟩ := s
    cases t <;> cases pA <;> cases pL <;> cases pD <;>
      simp [setTheme, setThemeDoc, updateButtons, removeProps_idem, setProps_idem]
  · intro t s
    obtain ⟨dataTheme, storage, sp, sv⟩ := s
    cases t <;> cases sp <;>
      simp [setThemeB, setThemeBDoc, updateSelect]

/-- C2: for every theme, `apply(theme)` followed — in a fresh session with
    the default document and the storage carried over — by `initialize()`
    reproduces the effective visual theme state of the original apply call:
    the same root override (variant A: the managed custom properties;
    variant B: the `data-theme` attribute) and the same active UI control. -/
theorem c2_persistence_roundtrip :
    (∀ (t : Theme) (s : StateA),
      themeRestrict (initA (freshA s.presentAuto s.presentLight s.presentDark
          (setTheme t s).storage)).rootStyle
        = themeRestrict (setTheme t s).rootStyle ∧
      ∀ t' : Theme,
        activeBtnA (initA (freshA s.presentAuto s.presentLight s.presentDark
            (setTheme t s).storage)) t'
          = activeBtnA (setTheme t s) t') ∧
    (∀ (t : Theme) (s : StateB) (defVal : String),
      (initB (freshB s.selPresent defVal (setThemeB t s).storage)).dataTheme
        = (setThemeB t s).dataTheme ∧
      activeSelB (initB (freshB s.selPresent defVal (setThemeB t s).storage))
        = activeSelB (setThemeB t s)) := by
  constructor
  · intro t s
    cases t with
    | auto =>
      rw [setTheme_storage_auto,
          initA_invalid (freshA s.presentAuto s.presentLight s.presentDark none) rfl]
      constructor
      · rw [updateButtons_rootStyle, setTheme_rootStyle_auto]
        unfold themeRestrict
        refine List.map_congr_left ?_
        intro k hk
        rw [removeProps_mem _ _ _ hk]
        rfl
      · intro t'
        rw [activeBtnA_updateButtons, activeBtnA_setTheme, presentA_freshA]
    | light =>
      rw [setTheme_storage_light, initA_valid _ "light" rfl (by decide)]
      have hst : strToTheme "light" = Theme.light := by decide
      rw [hst]
      constructor
      · rw [setTheme_rootStyle_light, setTheme_rootStyle_light]
        unfold themeRestrict
        exact List.map_congr_left fun k hk => setProps_indep _ _ _ _ hk
      · intro t'
        rw [activeBtnA_setTheme, activeBtnA_setTheme, presentA_freshA]
    | dark =>
      rw [setTheme_storage_dark, initA_valid _ "dark" rfl (by decide)]
      have hst : strToTheme "dark" = Theme.dark := by decide
      rw [hst]
      constructor
      · rw [setTheme_rootStyle_dark, setTheme_rootStyle_dark]
        unfold themeRestrict
        refine List.map_congr_left fun k hk => setProps_indep _ _ _ _ ?_
        rw [darkTheme_keys]
        exact hk
      · intro t'
        rw [activeBtnA_setTheme, activeBtnA_setTheme, presentA_freshA]
  · intro t s defVal
    cases t with
    | auto =>
      rw [setThemeB_storage_auto, initB_invalid (freshB s.selPresent defVal none) rfl]
      constructor
      · rw [updateSelect_dataTheme, setThemeB_dataTheme]
        rfl
      · rw [activeSelB_setThemeB]
        by_cases hp : s.selPresent <;>
          simp [updateSelect, activeSelB, freshB, hp, Theme.str]
    | light =>
      rw [setThemeB_storage_light, initB_valid _ "light" rfl (by decide)]
      have hst : strToTheme "light" = Theme.light := by decide
      rw [hst]
      constructor
      · rw [setThemeB_dataTheme, setThemeB_dataTheme]
        rfl
      · rw [activeSelB_setThemeB, activeSelB_setThemeB]
        rfl
    | dark =>
      rw [setThemeB_storage_dark, initB_valid _ "dark" rfl (by decide)]
      have hst : strToTheme "dark" = Theme.dark := by decide
      rw [hst]
      constructor
      · rw [setThemeB_dataTheme, setThemeB_dataTheme]
        rfl
      · rw [activeSelB_setThemeB, activeSelB_setThemeB]
        rfl

/-- C3: with an absent or invalid persisted value (e.g. `"blue"`),
    `initialize()` marks the "auto" control active, performs no storage
    write or delete, and leaves the document-root override untouched, in
    both variants. -/
theorem c3_invalid_storage_frame :
    (∀ s : StateA, savedValid s.storage = false → s.presentAuto = true →
      (initA s).storage = s.storage ∧
      (initA s).rootStyle = s.rootStyle ∧
      activeBtnA (initA s) .auto = true) ∧
    (∀ s : StateB, savedValid s.storage = false → s.selPresent = true →
      (initB s).storage = s.storage ∧
      (initB s).dataTheme = s.dataTheme ∧
      (initB s).selValue = "auto") := by
  constructor
  · intro s h hp
    rw [initA_invalid s h]
    refine ⟨rfl, rfl, ?_⟩
    rw [activeBtnA_updateButtons]
    simp [presentA, hp]
  · intro s h hp
    rw [initB_invalid s h]
    refine ⟨updateSelect_storage _ _, updateSelect_dataTheme _ _, ?_⟩
    simp [updateSelect, hp, Theme.str]

/-- Witness for C3: the persisted value is the invalid string `"blue"`. -/
theorem c3_invalid_storage_frame_witness :
    (savedValid exStateABlue.storage = false ∧ exStateABlue.presentAuto = true ∧
      ((initA exStateABlue).storage = exStateABlue.storage ∧
       (initA exStateABlue).rootStyle = exStateABlue.rootStyle ∧
       activeBtnA (initA exStateABlue) .auto = true)) ∧
    (savedValid exStateBBlue.storage = false ∧ exStateBBlue.selPresent = true ∧
      ((initB exStateBBlue).storage = exStateBBlue.storage ∧
       (initB exStateBBlue).dataTheme = exStateBBlue.dataTheme ∧
       (initB exStateBBlue).selValue = "auto")) :=
  ⟨⟨by decide, rfl, c3_invalid_storage_frame.1 exStateABlue (by decide) rfl⟩,
   ⟨by decide, rfl, c3_invalid_storage_frame.2 exStateBBlue (by decide) rfl⟩⟩

/-- C4: after `apply(theme)` with all controls registered, exactly the
    control associated with `theme` is marked active (variant A: full
    opacity and bold weight on exactly that button; variant B: the select's
    value is exactly that theme). -/
theorem c4_unique_active_control :
    (∀ (t : Theme) (s : StateA),
      s.presentAuto = true → s.presentLight = true → s.presentDark = true →
      ∀ t' : Theme, (activeBtnA (setTheme t s) t' = true ↔ t' = t)) ∧
    (∀ (t : Theme) (s : StateB), s.selPresent = true →
      (setThemeB t s).selValue = t.str ∧ (setThemeB t s).selPresent = true) := by
  constructor
  · intro t s hA hL hD t'
    rw [activeBtnA_setTheme]
    cases t' <;> simp [presentA, hA, hL, hD]
  · intro t s hp
    cases t <;> simp [setThemeB, updateSelect, setThemeBDoc, hp, Theme.str]

/-- Witness for C4 at concrete inputs. -/
theorem c4_unique_active_control_witness :
    (exStateA.presentAuto = true ∧ exStateA.presentLight = true ∧
     exStateA.presentDark = true ∧
      ∀ t' : Theme, (activeBtnA (setTheme .light exStateA) t' = true ↔ t' = .light)) ∧
    (exStateB.selPresent = true ∧
      ((setThemeB .dark exStateB).selValue = Theme.str .dark ∧
       (setThemeB .dark exStateB).selPresent = true)) :=
  ⟨⟨rfl, rfl, rfl, c4_unique_active_control.1 .light exStateA rfl rfl rfl⟩,
   ⟨rfl, c4_unique_active_control.2 .dark exStateB rfl⟩⟩

/-- A concrete page state for the raw toggle: button present, two
    stylesheets enabled, listener not yet attached. -/
def exRaw : RawState :=
  { btnPresent := true, btnText := "Raw HTML", btnDisplay := none,
    styleDisabled := [false, false], isRaw := false, attached := false }

/-- `exRaw` with the click listener already attached. -/
def exRawAttached : RawState := { exRaw with attached := true }

/-- C5, counterexample: the claim says the raw/styled toggle never changes
    stylesheet state on a host that is not a local-development host; but
    the `initRawToggle` copy at src/theme-switcher.ts lines 137-162 never
    consults the hostname, so on the non-local host `"example.com"` a click
    after its initialization disables both stylesheets. -/
theorem c5_counterexample_ungated_toggle :
    isDevHost "example.com" = false ∧
    exRaw.styleDisabled = [false, false] ∧
    (clickRawToggle (initRawToggleUngated exRaw)).styleDisabled = [true, true] := by
  refine ⟨by decide, rfl, by decide⟩

/-- C5 (amended): the src/raw-toggle.ts variant changes stylesheet state
    only on local-development hosts — on any other host the button is
    hidden and no listener is attached, so a click changes nothing; on a
    local host with the button present, initialization attaches the
    listener with its boolean `false`, and each click flips the boolean
    and sets every stylesheet's `disabled` flag to it.  (The copy of
    `initRawToggle` embedded in src/theme-switcher.ts lacks the host
    check.) -/
theorem c5_raw_toggle_dev_only :
    (∀ (h : String) (s : RawState), isDevHost h = false → s.attached = false →
      (clickRawToggle (initRawToggle h s)).styleDisabled = s.styleDisabled ∧
      clickRawToggle (initRawToggle h s) = initRawToggle h s) ∧
    (∀ (h : String) (s : RawState), isDevHost h = true → s.btnPresent = true →
      (initRawToggle h s).attached = true ∧ (initRawToggle h s).isRaw = false) ∧
    (∀ s : RawState, s.attached = true →
      (clickRawToggle s).isRaw = !s.isRaw ∧
      (clickRawToggle s).styleDisabled = s.styleDisabled.map (fun _ => !s.isRaw)) := by
  refine ⟨?_, ?_, ?_⟩
  · intro h s hdev hatt
    have hinit : (initRawToggle h s).attached = false := by
      unfold initRawToggle
      by_cases hb : s.btnPresent <;> simp [hb, hdev, hatt]
    have hstyles : (initRawToggle h s).styleDisabled = s.styleDisabled := by
      unfold initRawToggle
      by_cases hb : s.btnPresent <;> simp [hb, hdev]
    have hclick : clickRawToggle (initRawToggle h s) = initRawToggle h s := by
      unfold clickRawToggle
      simp [hinit]
    exact ⟨by rw [hclick, hstyles], hclick⟩
  · intro h s hdev hb
    unfold initRawToggle
    simp [hb, hdev]
  · intro s hatt
    unfold clickRawToggle
    simp [hatt]

/-- Witness for C5 (amended) at concrete inputs. -/
theorem c5_raw_toggle_dev_only_witness :
    (isDevHost "example.com" = false ∧ exRaw.attached = false ∧
      ((clickRawToggle (initRawToggle "example.com" exRaw)).styleDisabled
          = exRaw.styleDisabled ∧
       clickRawToggle (initRawToggle "example.com" exRaw)
          = initRawToggle "example.com" exRaw)) ∧
    (isDevHost "localhost" = true ∧ exRaw.btnPresent = true ∧
      ((initRawToggle "localhost" exRaw).attached = true ∧
       (initRawToggle "localhost" exRaw).isRaw = false)) ∧
    (exRawAttached.attached = true ∧
      ((clickRawToggle exRawAttached).isRaw = !exRawAttached.isRaw ∧
       (clickRawToggle exRawAttached).styleDisabled
          = exRawAttached.styleDisabled.map (fun _ => !exRawAttached.isRaw))) :=
  ⟨⟨by decide, rfl, c5_raw_toggle_dev_only.1 "example.com" exRaw (by decide) rfl⟩,
   ⟨by decide, rfl, c5_raw_toggle_dev_only.2.1 "localhost" exRaw (by decide) rfl⟩,
   ⟨rfl, c5_raw_toggle_dev_only.2.2 exRawAttached rfl⟩⟩

/-- C6: clicking the open trigger opens the dialog; a click whose target is
    the dialog element itself (the backdrop) closes it; a click whose
    target is a descendant of the dialog changes nothing, leaving it open. -/
theorem c6_dialog_open_close :
    (∀ s : DialogState, (openTriggerClick s).isOpen = true) ∧
    (∀ s : DialogState, (dialogClickHandler .dialogItself s).isOpen = false) ∧
    (∀ s : DialogState, dialogClickHandler .descendant s = s) :=
  ⟨fun _ => rfl, fun _ => rfl, fun _ => rfl⟩

/-- C7: when the clipboard write succeeds, a click on the injected copy
    button places exactly the code block's text content on the clipboard,
    and the label goes `"Copy"` (the injected initial text) to `"Copied!"`
    and back to `"Copy"` when the fixed 2000 ms timer fires. -/
theorem c7_copy_success :
    newCopyButton.text = "Copy" ∧
    copyRevertDelayMs = 2000 ∧
    ∀ (text : String) (s : CopyState),
      (clickCopy text (.ok ()) s).clipboard = some text ∧
      (clickCopy text (.ok ()) s).button.text = "Copied!" ∧
      (copyTimeout (.ok ()) (clickCopy text (.ok ()) s)).button.text = "Copy" :=
  ⟨rfl, rfl, fun _ _ => ⟨rfl, rfl, rfl⟩⟩

/-- C8: when the clipboard write fails, the click handler — a total
    function, because the `catch` branch is its `.error` arm, so no
    exception can escape it — only sets the transient label `"Failed"`
    (clipboard and the rest of the state unchanged), and the fixed 2000 ms
    timer reverts the label to `"Copy"`. -/
theorem c8_copy_failure :
    copyRevertDelayMs = 2000 ∧
    ∀ (text err : String) (s : CopyState),
      clickCopy text (.error err) s
        = { s with button := { s.button with text := "Failed" } } ∧
      (clickCopy text (.error err) s).clipboard = s.clipboard ∧
      (copyTimeout (.error err) (clickCopy text (.error err) s)).button.text = "Copy" :=
  ⟨rfl, fun _ _ _ => ⟨rfl, rfl, rfl⟩⟩

/-- Variant A state whose document root already carries an inline override
    on the managed property `--links` before any `apply` call. -/
def exStyledState : StateA :=
  { exStateA with rootStyle := fun k => if k = "--links" then some "red" else none }

/-- C9, counterexample: `apply("light")` then `apply("auto")` does not in
    general restore the root's style to its pre-apply state — `removeProperty`
    deletes an override, it cannot restore one.  On a root that carried
    `--links: red` before the pair of calls, the property is absent
    afterwards. -/
theorem c9_counterexample_prior_override :
    exStyledState.rootStyle "--links" = some "red" ∧
    (setTheme .auto (setTheme .light exStyledState)).rootStyle "--links" = none := by
  constructor
  · decide
  · rw [setTheme_rootStyle_auto]
    exact removeProps_mem _ _ _ (by decide)

/-- C9 (amended): `lightTheme` and `darkTheme` define exactly the same set
    of property keys, so for a non-auto theme `t`, `apply(t)` followed by
    `apply("auto")` removes every theme-property override that `apply(t)`
    set (every managed key ends up absent) and touches no other property;
    consequently, whenever the pre-apply root carried no theme-property
    overrides, its style is restored exactly. -/
theorem c9_theme_reset_no_leftover :
    darkTheme.map Prod.fst = themeKeys ∧
    ∀ (t : Theme) (s : StateA), t ≠ .auto →
      (∀ k ∈ themeKeys, (setTheme .auto (setTheme t s)).rootStyle k = none) ∧
      (∀ k, k ∉ themeKeys → (setTheme .auto (setTheme t s)).rootStyle k = s.rootStyle k) ∧
      ((∀ k ∈ themeKeys, s.rootStyle k = none) →
        (setTheme .auto (setTheme t s)).rootStyle = s.rootStyle) := by
  refine ⟨darkTheme_keys, ?_⟩
  intro t s ht
  have hroot : (setTheme .auto (setTheme t s)).rootStyle
      = removeProps themeKeys (setTheme t s).rootStyle := setTheme_rootStyle_auto _
  have h1 : ∀ k ∈ themeKeys, (setTheme .auto (setTheme t s)).rootStyle k = none := by
    intro k hk
    rw [hroot]
    exact removeProps_mem _ _ _ hk
  have h2 : ∀ k, k ∉ themeKeys → (setTheme .auto (setTheme t s)).rootStyle k = s.rootStyle k := by
    intro k hk
    rw [hroot, removeProps_not_mem _ _ _ hk]
    cases t with
    | auto => exact absurd rfl ht
    | light =>
      rw [setTheme_rootStyle_light]
      exact setProps_not_mem _ _ _ hk
    | dark =>
      rw [setTheme_rootStyle_dark]
      refine setProps_not_mem _ _ _ ?_
      rw [darkTheme_keys]
      exact hk
  refine ⟨h1, h2, ?_⟩
  intro hnone
  funext k
  by_cases hk : k ∈ themeKeys
  · rw [h1 k hk, hnone k hk]
  · exact h2 k hk

/-- Witness for C9 (amended): on a root with no prior theme overrides,
    `apply("light")` then `apply("auto")` restores the style exactly. -/
theorem c9_theme_reset_no_leftover_witness :
    (Theme.light ≠ Theme.auto) ∧
    (∀ k ∈ themeKeys, exStateA.rootStyle k = none) ∧
    (setTheme .auto (setTheme .light exStateA)).rootStyle = exStateA.rootStyle :=
  ⟨by decide, by decide,
   (c9_theme_reset_no_leftover.2 .light exStateA (by decide)).2.2 (by decide)⟩

end JuiceCss
